import Mathlib

/-
Verification of the caligae bootloader core: the PL011 UART driver, the
diagnostic logger built on it, the panic handler, the boot entry
procedure (all from src/bin/aarch64/qemu.rs), the placeholder heap
allocator, and the filesystem capability contract
(src/src/filesystem/mod.rs).

Strings are modelled as lists of byte values (`List Nat`): a Rust `&str`
is a UTF-8 byte sequence and the driver iterates `out_string.bytes()`.
Byte values in the source are `u8` by type and no arithmetic is ever
performed on them, so no wraparound modelling is needed.
-/

namespace Caliga

/-- UTF-8 encoding of one character, as byte values. -/
def charUtf8Bytes (c : Char) : List Nat :=
  let n := c.toNat
  if n < 0x80 then [n]
  else if n < 0x800 then [0xC0 + n / 64, 0x80 + n % 64]
  else if n < 0x10000 then [0xE0 + n / 4096, 0x80 + n / 64 % 64, 0x80 + n % 64]
  else [0xF0 + n / 262144, 0x80 + n / 4096 % 64, 0x80 + n / 64 % 64, 0x80 + n % 64]

/-- Byte sequence of a Lean string literal, standing in for the UTF-8
bytes of the corresponding Rust string literal. -/
def strBytes (s : String) : List Nat :=
  (s.data.map charUtf8Bytes).flatten

/-- `Mmio<u8>::write`: one volatile single-byte store to the device
register. The device is modelled by the ordered trace of bytes stored
into it; each call appends exactly one byte. -/
def Mmio.write (trace : List Nat) (value : Nat) : List Nat :=
  trace ++ [value]

/-- Address of UART0 on default QEMU for aarch64 (`UART0_ADDR`). -/
def UART0_ADDR : Nat := 0x09000000

/-- `Pl011Uart`: a handle to the UART device. `base` is the physical
base address the handle was constructed at; `dataStores` is the trace of
single-byte stores issued to the `data` register of the device. -/
structure Pl011Uart where
  base : Nat
  dataStores : List Nat
  deriving DecidableEq, Repr

/-- `Pl011Uart::new(base)`: casts the base address to a device handle.
The store trace already received by the device at that address is passed
in explicitly, since the model carries the device state in the handle. -/
def Pl011Uart.new (base : Nat) (deviceStores : List Nat) : Pl011Uart :=
  ⟨base, deviceStores⟩

/-- `core::fmt::Error`: the (single, payload-free) formatting error. -/
inductive FmtError where
  | error
  deriving DecidableEq, Repr

/-- `<Pl011Uart as Write>::write_str`: for each byte of the input, in
order, issue one single-byte store to the data register; then return
`Ok(())`. -/
def Pl011Uart.write_str (uart : Pl011Uart) (out_string : List Nat) :
    Pl011Uart × Except FmtError Unit :=
  (out_string.foldl
    (fun u out_byte => { u with dataStores := Mmio.write u.dataStores out_byte })
    uart,
   Except.ok ())

/-- Default `Write::write_char`: encode the char to UTF-8 and delegate
to `write_str`. Only used with `'\n'` (byte 10) in the source. -/
def Pl011Uart.write_char (uart : Pl011Uart) (c : Nat) :
    Pl011Uart × Except FmtError Unit :=
  uart.write_str [c]

/-- Error propagation inside a `write!` invocation: run the next
formatting step only if the previous one returned `Ok`. -/
def fmtSeq (step : Pl011Uart × Except FmtError Unit)
    (next : Pl011Uart → Pl011Uart × Except FmtError Unit) :
    Pl011Uart × Except FmtError Unit :=
  match step with
  | (u, Except.ok _) => next u
  | (u, Except.error e) => (u, Except.error e)

/-- `.unwrap()` on a `fmt::Result`: `none` models the abort (panic) on
the error branch. -/
def unwrapFmt (step : Pl011Uart × Except FmtError Unit) : Option Pl011Uart :=
  match step with
  | (u, Except.ok _) => some u
  | (_, Except.error _) => none

-- Helper lemmas about the UART write path.

theorem write_str_eq (uart : Pl011Uart) (s : List Nat) :
    uart.write_str s = (⟨uart.base, uart.dataStores ++ s⟩, Except.ok ()) := by
  unfold Pl011Uart.write_str
  induction s generalizing uart with
  | nil => simp
  | cons b rest ih =>
    simp only [List.foldl_cons]
    rw [show ({ uart with dataStores := Mmio.write uart.dataStores b } : Pl011Uart)
      = ⟨uart.base, uart.dataStores ++ [b]⟩ from rfl]
    rw [ih]
    simp

theorem write_char_eq (uart : Pl011Uart) (c : Nat) :
    uart.write_char c = (⟨uart.base, uart.dataStores ++ [c]⟩, Except.ok ()) := by
  unfold Pl011Uart.write_char
  exact write_str_eq uart [c]

theorem fmtSeq_write_str (u : Pl011Uart) (s : List Nat)
    (next : Pl011Uart → Pl011Uart × Except FmtError Unit) :
    fmtSeq (u.write_str s) next = next ⟨u.base, u.dataStores ++ s⟩ := by
  rw [write_str_eq]
  rfl

theorem unwrapFmt_write_str (u : Pl011Uart) (s : List Nat) :
    unwrapFmt (u.write_str s) = some ⟨u.base, u.dataStores ++ s⟩ := by
  rw [write_str_eq]
  rfl

/-- `log::Level`: severity of a record; `Error` is the most severe and
has the smallest numeric encoding (1), `Trace` the largest (5). -/
inductive Level where
  | error
  | warn
  | info
  | debug
  | trace
  deriving DecidableEq, Repr

/-- `log::LevelFilter`: a level cutoff; `Off` (0) through `Trace` (5). -/
inductive LevelFilter where
  | off
  | error
  | warn
  | info
  | debug
  | trace
  deriving DecidableEq, Repr

/-- The `usize` encoding of a `Level` (`Error = 1`, ..., `Trace = 5`). -/
def Level.toUsize : Level → Nat
  | .error => 1
  | .warn => 2
  | .info => 3
  | .debug => 4
  | .trace => 5

/-- The `usize` encoding of a `LevelFilter` (`Off = 0`, ..., `Trace = 5`). -/
def LevelFilter.toUsize : LevelFilter → Nat
  | .off => 0
  | .error => 1
  | .warn => 2
  | .info => 3
  | .debug => 4
  | .trace => 5

/-- `Level::to_level_filter`: the filter admitting exactly this level
and the more severe ones. -/
def Level.to_level_filter : Level → LevelFilter
  | .error => .error
  | .warn => .warn
  | .info => .info
  | .debug => .debug
  | .trace => .trace

/-- `PartialOrd` on `LevelFilter` in the log crate compares the `usize`
encodings. -/
def LevelFilter.le (a b : LevelFilter) : Bool :=
  decide (a.toUsize ≤ b.toUsize)

/-- `Level::as_str`: the fixed upper-case name of the level. -/
def Level.as_str : Level → String
  | .error => "ERROR"
  | .warn => "WARN"
  | .info => "INFO"
  | .debug => "DEBUG"
  | .trace => "TRACE"

/-- Bytes of `Level::as_str`. -/
def Level.as_str_bytes (l : Level) : List Nat :=
  strBytes l.as_str

/-- `log::Record`: a severity, the formatting arguments observed through
`args().as_str()` (`some` exactly when the message is available as a
pre-rendered string needing no allocation), and the optional source
file name and line number. -/
structure Record where
  level : Level
  args_as_str : Option (List Nat)
  file : Option (List Nat)
  line : Option Nat
  deriving DecidableEq, Repr

/-- `{:?}` rendering of the `u32` line number: its decimal digits. -/
def natDebugBytes (n : Nat) : List Nat :=
  strBytes (Nat.repr n)

/-- `UartPl011Logger`: the logger singleton's payload — one UART handle
held in an interior-mutability cell (the cell is modelled by explicit
state passing of the handle). -/
structure UartPl011Logger where
  uart : Pl011Uart
  deriving DecidableEq, Repr

/-- `UartPl011Logger::enabled`: whether
`metadata.level().to_level_filter() <= log::max_level()`, with the
globally configured maximum level passed explicitly. -/
def UartPl011Logger.enabled (max_level : LevelFilter) (level : Level) : Bool :=
  LevelFilter.le level.to_level_filter max_level

/-- `UartPl011Logger::log`: write `"[<LEVEL>] "`, then the pre-rendered
message if available and a fixed fallback string otherwise, then
`", <file>:<line>"` when both file and line are present, then `'\n'`.
Each `fmt::Result` is `.unwrap()`ed; `none` models the abort of an
unwrap on the error branch. -/
def UartPl011Logger.log (uart : Pl011Uart) (record : Record) : Option Pl011Uart := do
  let uart ← unwrapFmt (fmtSeq (uart.write_str (strBytes "["))
    (fun u => fmtSeq (u.write_str record.level.as_str_bytes)
    (fun u => u.write_str (strBytes "] "))))
  let uart ← (match record.args_as_str with
    | some args => unwrapFmt (uart.write_str args)
    | none => unwrapFmt (uart.write_str (strBytes "Could not get log; allocator needed")))
  let uart ← (match record.file, record.line with
    | some file_name, some line =>
      unwrapFmt (fmtSeq (uart.write_str (strBytes ", "))
        (fun u => fmtSeq (u.write_str file_name)
        (fun u => fmtSeq (u.write_str (strBytes ":"))
        (fun u => u.write_str (natDebugBytes line)))))
    | _, _ => some uart)
  unwrapFmt (uart.write_char 10)

/-- The log line format stated by the spec:
`"[<LEVEL>] <message>[, <file>:<line>]\n"`, the fallback message when no
pre-rendered string exists, the location suffix present exactly when
both file and line are known. -/
def specLogLine (record : Record) : List Nat :=
  strBytes "[" ++ record.level.as_str_bytes ++ strBytes "] " ++
  (match record.args_as_str with
   | some msg => msg
   | none => strBytes "Could not get log; allocator needed") ++
  (match record.file, record.line with
   | some file_name, some line =>
     strBytes ", " ++ file_name ++ strBytes ":" ++ natDebugBytes line
   | _, _ => []) ++
  [10]

theorem log_spec (uart : Pl011Uart) (r : Record) :
    UartPl011Logger.log uart r =
      some ⟨uart.base, uart.dataStores ++ specLogLine r⟩ := by
  unfold UartPl011Logger.log specLogLine
  rcases r with ⟨level, args, file, line⟩
  rcases args with _ | args <;> rcases file with _ | f <;> rcases line with _ | l <;>
    simp [fmtSeq, write_str_eq, write_char_eq, unwrapFmt, List.append_assoc]

/-- C2: for every log record, `log` emits exactly `"[<LEVEL>] "`, then
the record's message verbatim when it is available pre-rendered (the
fixed fallback string otherwise), then `", <file>:<line>"` exactly when
both file and line are present, then one trailing newline — and nothing
else, in that order, onto the UART store trace. -/
theorem logger_log_emits_exact_line (uart : Pl011Uart) (record : Record) :
    UartPl011Logger.log uart record =
      some ⟨uart.base, uart.dataStores ++ specLogLine record⟩ :=
  log_spec uart record

/-- C3: `enabled(L)` returns true iff `L`'s filter is at or below the
configured maximum level, and in particular returns false whenever `L`
exceeds the maximum. -/
theorem logger_enabled_iff_at_or_below_max
    (max_level : LevelFilter) (level : Level) :
    (UartPl011Logger.enabled max_level level = true ↔
      level.to_level_filter.toUsize ≤ max_level.toUsize) ∧
    (max_level.toUsize < level.to_level_filter.toUsize →
      UartPl011Logger.enabled max_level level = false) := by
  constructor
  · simp [UartPl011Logger.enabled, LevelFilter.le]
  · intro h
    simp [UartPl011Logger.enabled, LevelFilter.le]
    omega

/-- Witness for C3: with the maximum set to `Error`, the more verbose
`Debug` is disabled. -/
theorem logger_enabled_iff_at_or_below_max_witness :
    UartPl011Logger.enabled LevelFilter.error Level.debug = false :=
  (logger_enabled_iff_at_or_below_max LevelFilter.error Level.debug).2 (by decide)

/-- C1: for every byte sequence `s`, `write_str` issues exactly
`s.length` single-byte stores to the data register, one per byte of `s`,
in the original order (the device trace is extended by exactly `s`), and
the operation returns `Ok(())`; the result type can also carry a
formatting error, but the error branch is never produced. -/
theorem uart_write_str_stores_every_byte_in_order
    (uart : Pl011Uart) (s : List Nat) :
    (uart.write_str s).2 = Except.ok () ∧
    (uart.write_str s).1.dataStores = uart.dataStores ++ s ∧
    (uart.write_str s).1.dataStores.length = uart.dataStores.length + s.length := by
  rw [write_str_eq]
  exact ⟨rfl, rfl, by simp⟩

/-- Control state of the `loop {}` at the end of the panic handler:
either still iterating, or control has left the loop. -/
inductive LoopState where
  | running
  | exited
  deriving DecidableEq, Repr

/-- One iteration of `loop {}`: the body is empty and contains no break
and no return, so every step continues the loop. -/
def loopStep : LoopState → LoopState
  | _ => .running

/-- Result of the panic handler: the base address at which it
constructed its fresh UART handle, the final device store trace, and the
control state it is left in. -/
structure PanicResult where
  base : Nat
  finalStores : List Nat
  after : LoopState
  deriving DecidableEq, Repr

/-- The panic line stated by the spec: `"[PANIC] <info>\n"`. -/
def panicLine (info : List Nat) : List Nat :=
  strBytes "[PANIC] " ++ info ++ [10]

/-- `handle_panic`: re-construct a UART handle at `UART0_ADDR`, write
`"[PANIC] {info}"` followed by the newline of `writeln!` (unwrapping the
`fmt::Result`), then enter `loop {}`. `info` is the byte rendering of
the `PanicInfo` produced by the runtime (external to this repository).
The returned control state is the loop's initial state; the function
has no constructor for returning to its caller. -/
def handle_panic (deviceStores info : List Nat) : Option PanicResult := do
  let uart := Pl011Uart.new UART0_ADDR deviceStores
  let uart ← unwrapFmt (fmtSeq (uart.write_str (strBytes "[PANIC] "))
    (fun u => fmtSeq (u.write_str info)
    (fun u => u.write_str (strBytes "\n"))))
  some ⟨uart.base, uart.dataStores, LoopState.running⟩

theorem handle_panic_spec (deviceStores info : List Nat) :
    handle_panic deviceStores info =
      some ⟨UART0_ADDR, deviceStores ++ panicLine info, LoopState.running⟩ := by
  unfold handle_panic panicLine
  simp [Pl011Uart.new, fmtSeq, write_str_eq, unwrapFmt, List.append_assoc]
  rfl

theorem loopStep_stays_running (n : Nat) :
    loopStep^[n] LoopState.running = LoopState.running := by
  induction n with
  | zero => rfl
  | succ n ih => rw [Function.iterate_succ_apply, loopStep]; exact ih

/-- C4: on every invocation, the panic handler constructs its fresh UART
handle at the fixed base address `UART0_ADDR`, appends exactly
`"[PANIC] <info>\n"` to the device store trace, and enters the infinite
loop: from the loop's state, no number of steps ever reaches the
`exited` control state, so the handler never returns to its caller. -/
theorem handle_panic_emits_and_halts (deviceStores info : List Nat) :
    handle_panic deviceStores info =
      some ⟨UART0_ADDR, deviceStores ++ panicLine info, LoopState.running⟩ ∧
    ∀ n : Nat, loopStep^[n] LoopState.running ≠ LoopState.exited := by
  refine ⟨handle_panic_spec deviceStores info, fun n => ?_⟩
  rw [loopStep_stays_running]
  intro h
  exact LoopState.noConfusion h

/-- `log::SetLoggerError`: returned by `set_logger` when a logger is
already registered. -/
inductive SetLoggerError where
  | error
  deriving DecidableEq, Repr

/-- The log crate facade's global state: whether a logger has been
registered, and the configured maximum level filter (initially `Off`). -/
structure LogGlobalState where
  loggerSet : Bool
  max_level : LevelFilter
  deriving DecidableEq, Repr

/-- `log::set_logger`: registers the logger; succeeds exactly on the
first call. -/
def set_logger (st : LogGlobalState) : LogGlobalState × Except SetLoggerError Unit :=
  if st.loggerSet then (st, Except.error SetLoggerError.error)
  else ({ st with loggerSet := true }, Except.ok ())

/-- `log::set_max_level`: sets the global maximum level filter. -/
def set_max_level (st : LogGlobalState) (filter : LevelFilter) : LogGlobalState :=
  { st with max_level := filter }

/-- The `info!`/`log!` macro: invoke the registered logger's `log` only
when the record's level passes the configured maximum (and a logger is
registered; otherwise the facade's no-op logger runs). -/
def logMacro (st : LogGlobalState) (uart : Pl011Uart) (record : Record) :
    Option Pl011Uart :=
  if LevelFilter.le record.level.to_level_filter st.max_level && st.loggerSet then
    UartPl011Logger.log uart record
  else some uart

/-- Boot-time events of the entry procedure, in the order they occur. -/
inductive BootEvent where
  | uartConstructed (base : Nat)
  | loggerSingletonInstalled
  | globalLoggerRegistered
  | maxLevelSet (filter : LevelFilter)
  | smokeLogEmitted
  | panicked
  deriving DecidableEq, Repr

/-- The record produced by `info!("Done with info log")` at
src/bin/aarch64/qemu.rs line 159: a static format string, so
`args().as_str()` is `some`, and the call site's file and line are
attached. -/
def smokeRecord : Record :=
  { level := Level.info
    args_as_str := some (strBytes "Done with info log")
    file := some (strBytes "src/bin/aarch64/qemu.rs")
    line := some 159 }

/-- `qemu_entry`: construct the UART handle at `UART0_ADDR`, move it
into the `LOGGER` singleton, register the logger with the facade
(unwrapping the result), set the maximum level to `Debug`, emit the
smoke-test info log, then `panic!("End of bootloader reached")`, which
runs `handle_panic`. `panicInfo` is the runtime's byte rendering of the
panic message, external to this repository. The result is the ordered
event trace and the terminal panic state; there is no constructor for a
normal return. -/
def qemu_entry (initialStores panicInfo : List Nat) :
    Option (List BootEvent × PanicResult) := do
  let uart := Pl011Uart.new UART0_ADDR initialStores
  let events := [BootEvent.uartConstructed UART0_ADDR]
  let LOGGER : Option UartPl011Logger := some ⟨uart⟩
  let logger ← LOGGER
  let events := events ++ [BootEvent.loggerSingletonInstalled]
  let st : LogGlobalState := { loggerSet := false, max_level := LevelFilter.off }
  let (st, registered) := set_logger st
  let _ ← (match registered with
    | Except.ok _ => some ()
    | Except.error _ => none)
  let events := events ++ [BootEvent.globalLoggerRegistered]
  let st := set_max_level st LevelFilter.debug
  let events := events ++ [BootEvent.maxLevelSet LevelFilter.debug]
  let uart ← logMacro st logger.uart smokeRecord
  let events := events ++ [BootEvent.smokeLogEmitted]
  let events := events ++ [BootEvent.panicked]
  let result ← handle_panic uart.dataStores panicInfo
  some (events, result)

/-- C5: the entry procedure performs exactly, and in this order: UART
construction at the fixed address, logger-singleton installation, global
logger registration, setting the maximum severity to `Debug`, the
smoke-test log record, and the intentional panic; the device trace ends
holding the smoke-test log line followed by the panic line, and the
procedure terminates in the panic handler's infinite-loop state rather
than returning. -/
theorem qemu_entry_boot_sequence (initialStores panicInfo : List Nat) :
    qemu_entry initialStores panicInfo =
      some ([BootEvent.uartConstructed UART0_ADDR,
             BootEvent.loggerSingletonInstalled,
             BootEvent.globalLoggerRegistered,
             BootEvent.maxLevelSet LevelFilter.debug,
             BootEvent.smokeLogEmitted,
             BootEvent.panicked],
            ⟨UART0_ADDR,
             initialStores ++ specLogLine smokeRecord ++ panicLine panicInfo,
             LoopState.running⟩) := by
  unfold qemu_entry
  simp [Pl011Uart.new, set_logger, set_max_level, logMacro, log_spec,
    handle_panic_spec, smokeRecord, Level.to_level_filter, LevelFilter.le,
    LevelFilter.toUsize, List.append_assoc]

/-- `core::alloc::Layout`: requested size and alignment. -/
structure Layout where
  size : Nat
  align : Nat
  deriving DecidableEq, Repr

/-- Outcome of a global-allocator call: a pointer on success, or an
abort with a panic message. -/
inductive AllocResult where
  | ok (ptr : Nat)
  | panicked (msg : String)
  deriving DecidableEq, Repr

/-- The placeholder global allocator `Aarch64QemuAlloc` (a unit
struct). -/
structure Aarch64QemuAlloc where
  deriving DecidableEq, Repr

/-- `Aarch64QemuAlloc::alloc`: unconditionally
`panic!("Allocation is unimplemented!")`. -/
def Aarch64QemuAlloc.alloc (_self : Aarch64QemuAlloc) (_layout : Layout) :
    AllocResult :=
  .panicked "Allocation is unimplemented!"

/-- C9: the placeholder allocator aborts with the fixed panic message on
every allocation request, whatever the layout; no request ever yields a
pointer. -/
theorem alloc_always_panics (self : Aarch64QemuAlloc) (layout : Layout) :
    self.alloc layout = AllocResult.panicked "Allocation is unimplemented!" ∧
    ∀ ptr : Nat, self.alloc layout ≠ AllocResult.ok ptr := by
  refine ⟨rfl, fun ptr h => ?_⟩
  exact AllocResult.noConfusion h

/-- C10: every UART `write_str` returns `Ok`, so each `.unwrap()` on a
UART write result in `UartPl011Logger::log` and in `handle_panic` has an
unreachable error branch: both functions always reach their normal
result (`isSome`), never the abort modelled by `none`. -/
theorem uart_write_unwraps_never_abort :
    (∀ (uart : Pl011Uart) (s : List Nat), (uart.write_str s).2 = Except.ok ()) ∧
    (∀ (uart : Pl011Uart) (record : Record),
      (UartPl011Logger.log uart record).isSome = true) ∧
    (∀ (deviceStores info : List Nat),
      (handle_panic deviceStores info).isSome = true) := by
  refine ⟨fun uart s => ?_, fun uart record => ?_, fun deviceStores info => ?_⟩
  · rw [write_str_eq]
  · rw [log_spec]; rfl
  · rw [handle_panic_spec]; rfl

/-- `FileDescriptor<FileSystemData>`: the caller-visible handle wrapping
the driver-defined payload (`data: Box<FileSystemData>`; the box is an
owned payload). -/
structure FileDescriptor (FileSystemData : Type) where
  data : FileSystemData

/-- `OpenFileError`: the enumerated errors of `open_file`. -/
inductive OpenFileError where
  | PathTooLong
  | ComponentTooLong
  | InvalidCharset
  | FileNotFound
  | DeviceError
  | AccessDenied
  | FileSystemCorrupted
  | DirectoryNotFound
  | IsFile
  | IsDirectory
  deriving DecidableEq, Repr, Fintype

/-- The `FileSystem` trait, shallowly: a record of the five operations,
generic over the implementing driver state `Fs` and its
`FileSystemData`. `&mut self` is explicit state passing; `&mut`
arguments are returned updated; `Result<_, OpenFileError>` is `Except`;
paths and buffers are byte sequences; `u64`/`usize` are `Nat`. -/
structure FileSystem (Fs FileSystemData : Type) where
  open_file : Fs → List Nat → Fs × Except OpenFileError (FileDescriptor FileSystemData)
  close_file : Fs → FileDescriptor FileSystemData → Fs
  read_file : Fs → FileDescriptor FileSystemData → List Nat → Nat →
    Fs × FileDescriptor FileSystemData × List Nat
  seek_file : Fs → FileDescriptor FileSystemData → Nat →
    Fs × FileDescriptor FileSystemData
  get_size : Fs → FileDescriptor FileSystemData → Fs × FileDescriptor FileSystemData × Nat

/-- Declared result type of a `FileSystem` trait operation:
`Result<FileDescriptor<_>, OpenFileError>`, `()`, or `u64`. -/
inductive FsRetType where
  | resultFdOrOpenFileError
  | unit
  | u64
  deriving DecidableEq, Repr

/-- Whether a result type can carry an error. -/
def FsRetType.canFail : FsRetType → Bool
  | .resultFdOrOpenFileError => true
  | .unit => false
  | .u64 => false

/-- Whether a result type carries any value at all (a unit return
carries none — in particular, no transfer count). -/
def FsRetType.carriesValue : FsRetType → Bool
  | .unit => false
  | .resultFdOrOpenFileError => true
  | .u64 => true

/-- One trait operation: its name and declared result type. -/
structure FsOp where
  name : String
  ret : FsRetType
  deriving DecidableEq, Repr

/-- The five operations declared by the `FileSystem` trait, with the
result type of each, exactly as in src/src/filesystem/mod.rs (mirroring
the field types of `FileSystem` above). -/
def fileSystemOps : List FsOp :=
  [⟨"open_file", FsRetType.resultFdOrOpenFileError⟩,
   ⟨"close_file", FsRetType.unit⟩,
   ⟨"read_file", FsRetType.unit⟩,
   ⟨"seek_file", FsRetType.unit⟩,
   ⟨"get_size", FsRetType.u64⟩]

/-- The declared result type of the named trait operation. -/
def retOf (opName : String) : Option FsRetType :=
  (fileSystemOps.find? (fun op => op.name == opName)).map (fun op => op.ret)

/-- C6: in the filesystem contract, an operation's result can carry an
error exactly when the operation is `open_file`; in particular
`close_file` (like `read_file` and `seek_file`) returns no outcome at
all — its result type is unit. -/
theorem open_file_only_fallible_operation :
    (∀ op ∈ fileSystemOps, (FsRetType.canFail op.ret = true ↔ op.name = "open_file")) ∧
    (∀ op ∈ fileSystemOps, op.name = "close_file" → op.ret = FsRetType.unit) := by
  decide

/-- Witness for C6 at the concrete `open_file` entry of the trait. -/
theorem open_file_only_fallible_operation_witness :
    FsRetType.canFail FsRetType.resultFdOrOpenFileError = true :=
  (open_file_only_fallible_operation.1
    ⟨"open_file", FsRetType.resultFdOrOpenFileError⟩ (by decide)).mpr rfl

/-- C7: `OpenFileError` has exactly ten inhabitants, every value is one
of the ten named failure kinds, and it is precisely the error type
`open_file` is declared with — no other failure mode of `open_file` is
representable. -/
theorem open_file_error_closed_ten_variants :
    Fintype.card OpenFileError = 10 ∧
    (∀ e : OpenFileError,
      e = OpenFileError.PathTooLong ∨ e = OpenFileError.ComponentTooLong ∨
      e = OpenFileError.InvalidCharset ∨ e = OpenFileError.FileNotFound ∨
      e = OpenFileError.DeviceError ∨ e = OpenFileError.AccessDenied ∨
      e = OpenFileError.FileSystemCorrupted ∨ e = OpenFileError.DirectoryNotFound ∨
      e = OpenFileError.IsFile ∨ e = OpenFileError.IsDirectory) ∧
    retOf "open_file" = some FsRetType.resultFdOrOpenFileError := by
  refine ⟨by decide, fun e => ?_, by decide⟩
  cases e <;> simp

/-- C8 counterexample: the trait's `read_file` is declared with a unit
result type — it returns no value at all, so in particular it does not
return the transfer count. -/
theorem read_file_returns_no_transfer_count :
    retOf "read_file" = some FsRetType.unit ∧
    FsRetType.carriesValue FsRetType.unit = false := by
  decide

/-- Modelled from the spec: no concrete filesystem driver exists in the
repository (the trait only declares the operations), so the behaviour of
a read is taken from the spec's words — a file has contents and a
cursor; a read transfers up to `count` bytes starting at the cursor. -/
structure ModelFile where
  contents : List Nat
  cursor : Nat
  deriving DecidableEq, Repr

/-- Modelled from the spec: the number of bytes actually transferred —
at most `count`, and at most what remains after the cursor. -/
def modelTransfer (f : ModelFile) (count : Nat) : Nat :=
  min count (f.contents.length - f.cursor)

/-- Modelled from the spec: read up to `count` bytes into the buffer
starting at the cursor, advancing the cursor by the number of bytes
actually transferred; the rest of the buffer is left as it was. -/
def model_read_file (f : ModelFile) (buf : List Nat) (count : Nat) :
    ModelFile × List Nat :=
  let n := modelTransfer f count
  ({ f with cursor := f.cursor + n },
   (f.contents.drop f.cursor).take n ++ buf.drop n)

/-- C8 (amended): `read_file` reads up to `count` bytes into the buffer
starting at the descriptor's current cursor — the transferred prefix of
the buffer holds exactly the file bytes at the cursor — and advances the
cursor by the number of bytes actually transferred; the interface
returns no value, so no transfer count is returned to the caller. -/
theorem read_file_amended_cursor_advance
    (f : ModelFile) (buf : List Nat) (count : Nat) :
    (model_read_file f buf count).1.cursor = f.cursor + modelTransfer f count ∧
    modelTransfer f count ≤ count ∧
    (model_read_file f buf count).2.take (modelTransfer f count) =
      (f.contents.drop f.cursor).take (modelTransfer f count) ∧
    retOf "read_file" = some FsRetType.unit := by
  refine ⟨rfl, Nat.min_le_left _ _, ?_, by decide⟩
  have hlen : ((f.contents.drop f.cursor).take (modelTransfer f count)).length
      = modelTransfer f count := by
    simp [modelTransfer]
  calc (model_read_file f buf count).2.take (modelTransfer f count)
      = ((f.contents.drop f.cursor).take (modelTransfer f count)
          ++ buf.drop (modelTransfer f count)).take (modelTransfer f count) := rfl
    _ = (f.contents.drop f.cursor).take (modelTransfer f count) := by
        rw [List.take_append_of_le_length (le_of_eq hlen.symm)]
        rw [List.take_of_length_le (le_of_eq hlen)]

end Caliga
